import Mathlib

/-!
Verification of the queryguard proxy (`proxy.go`) against its specification.

The Go source is shallowly embedded below.  Pure string manipulation
(`strings.TrimLeft`, `strings.Trim`, `strings.EqualFold`, `strings.SplitN`,
`bytes.HasSuffix`, `bytes.Contains`) is modelled on `List Char`; Go's
`strings.EqualFold` is modelled as ASCII case folding (every string the
program compares is ASCII).  BSON documents (`bson.D`) are modelled as ordered
lists of name/value pairs; the 64-bit floating-point payload of a BSON double
is modelled as a rational number (the program only compares and copies these
values, it never does float arithmetic on them).  Go panics (failed type
assertions, out-of-range indexing) are modelled as `Option.none` results.
The network side (sockets, deadlines) is modelled by recording what the code
would write to each endpoint; the control channel (mgo session) is modelled
by passing its results (`Option` = error) as parameters.
-/

/-- Go `strings.TrimLeft s (String.mk [c])`: removes every leading occurrence
of the character `c`. -/
def trimLeftChar (c : Char) (s : String) : String :=
  String.mk (s.toList.dropWhile (· == c))

/-- Go `strings.Trim s (String.mk [c])`: removes every leading and trailing
occurrence of the character `c` (both ends). -/
def strTrimChar (c : Char) (s : String) : String :=
  String.mk (((s.toList.dropWhile (· == c)).reverse.dropWhile (· == c)).reverse)

/-- ASCII lower casing of a string, character by character. -/
def asciiLower (s : String) : String :=
  String.mk (s.toList.map Char.toLower)

/-- Go `strings.EqualFold`, restricted to ASCII folding (all strings the
proxy compares with it are ASCII). -/
def strEqualFold (a b : String) : Bool :=
  asciiLower a == asciiLower b

/-- Test that `pre` is an initial segment of the second list. -/
def listStartsWith : List Char → List Char → Bool
  | [], _ => true
  | _ :: _, [] => false
  | a :: as, b :: bs => a == b && listStartsWith as bs

/-- Test that `needle` occurs contiguously in the second list. -/
def listHasSeq (needle : List Char) : List Char → Bool
  | [] => listStartsWith needle []
  | c :: rest => listStartsWith needle (c :: rest) || listHasSeq needle rest

/-- Go `bytes.Contains hay needle` on the embedded strings. -/
def strContainsStr (hay needle : String) : Bool :=
  listHasSeq needle.toList hay.toList

/-- Go `bytes.HasSuffix hay sfx` on the embedded strings. -/
def strEndsWithStr (hay sfx : String) : Bool :=
  listStartsWith sfx.toList.reverse hay.toList.reverse

/-- A BSON value as `gopkg.in/mgo.v2/bson` unmarshals it into an `interface{}`:
doubles (modelled as rationals), strings, ordered sub-documents (`bson.D`),
arrays, booleans, integers (int32/int64, anything non-double and numeric),
and null (which unmarshals to the nil interface). -/
inductive BVal where
  | double (q : ℚ)
  | str (s : String)
  | doc (elems : List (String × BVal))
  | arr (elems : List BVal)
  | boolV (b : Bool)
  | intV (n : Int)
  | nullV
deriving Repr

/-- Model of `bson.D`: an ordered document, a list of `bson.DocElem`
name/value pairs. -/
abbrev BsonD := List (String × BVal)

/-- Modelled from the spec: the opcode enumeration of §3 ("an enumerated tag
with at least: Reply, Update, Insert, Query, GetMore, Delete, KillCursors,
Msg").  The wire-codec file declaring `OpCode` is not under `src/`. -/
inductive OpCode where
  | reply
  | update
  | insert
  | query
  | getMore
  | deleteOp
  | killCursors
  | msgOp
deriving Repr, DecidableEq

/-- Modelled from the spec: §3 "Each opcode carries a boolean HasResponse
(true for Query and GetMore; false for Update, Insert, Delete, KillCursors,
Msg)". -/
def OpCode.hasResponse : OpCode → Bool
  | .query => true
  | .getMore => true
  | _ => false

/-- Modelled from the spec: §3 message header, "a fixed four-field record:
total message length in bytes (including header), request id, response-to id,
opcode. All integers are little-endian, signed 32-bit."  The `messageHeader`
declaration itself is in the wire-codec file, which is not under `src/`. -/
structure MessageHeader where
  messageLength : Int
  requestID : Int
  responseTo : Int
  opCode : OpCode
deriving Repr, DecidableEq

/-- The literal `errorBytes` of proxy.go line 51: the fixed 20-byte reply
prelude written before the `$err` document of every synthetic error reply. -/
def errorBytes : List Nat :=
  [0, 0, 0, 1, 0, 0, 0, 0, 0, 0, 0, 0, 0, 0, 0, 0, 0, 0, 0, 1]

/-- Little-endian decoding of the 4 bytes at offset `off` (missing bytes read
as 0), as the wire protocol's readers decode an int32. -/
def decodeLE32 (bs : List Nat) (off : Nat) : Nat :=
  (bs.getD off 0) + 256 * (bs.getD (off + 1) 0) + 65536 * (bs.getD (off + 2) 0)
    + 16777216 * (bs.getD (off + 3) 0)

/-- Little-endian decoding of the 8 bytes at offset `off`, as an int64 is
decoded. -/
def decodeLE64 (bs : List Nat) (off : Nat) : Nat :=
  decodeLE32 bs off + 4294967296 * decodeLE32 bs (off + 4)

/-- The serialized byte length of the error document
`{ $err: <msg (string)>, code: <int32> }` as `bson.Marshal` produces it:
4 (length prefix) + (1 + 5 + 4 + len(msg) + 1) for the `$err` string field
+ (1 + 5 + 4) for the `code` int32 field + 1 (terminator). -/
def errorDocSize (msg : String) : Nat :=
  26 + msg.utf8ByteSize

/-- A synthetic error reply as `sendErrorToClient` (proxy.go lines 396-417)
writes it: one header, the fixed `errorBytes` prelude, one error document. -/
structure ErrorReply where
  header : MessageHeader
  preludeBytes : List Nat
  errDoc : BsonD
deriving Repr

/-- proxy.go `sendErrorToClient` (lines 396-417): builds the error document
`{ $err: err.Error(), code: code }`, a Reply header whose `RequestID` and
`ResponseTo` are both the offending request's id and whose length is
header + prelude + document, and writes header, `errorBytes` and the document
to the client — exactly one message. -/
def sendErrorToClient (h : MessageHeader) (errMsg : String) (code : Int) : ErrorReply :=
  { header :=
      { messageLength := (16 + 20 + errorDocSize errMsg : Nat)
        requestID := h.requestID
        responseTo := h.requestID
        opCode := OpCode.reply }
    preludeBytes := errorBytes
    errDoc := [("$err", BVal.str errMsg), ("code", BVal.intV code)] }

/-- proxy.go lines 70-72: the endpoint an attempt dials.  `server :=
p.servers[0]`, and when more than one endpoint is configured,
`server = p.servers[rand.Intn(l-1)]` — `rand.Intn (l-1)` draws uniformly from
`[0, l-1)`, modelled by reducing the supplied draw modulo `l-1`.  An empty
endpoint list makes `p.servers[0]` panic, modelled as `none`. -/
def pickServer (servers : List String) (draw : Nat) : Option String :=
  if servers.length = 0 then none
  else if servers.length > 1 then servers.get? (draw % (servers.length - 1))
  else servers.get? 0

/-- The sleeps of `n` consecutive failed dial attempts whose first sleep is
`startMs` milliseconds, each retry doubling (`retrySleep = retrySleep * 2`). -/
def backoffList (startMs : Nat) : Nat → List Nat
  | 0 => []
  | n + 1 => startMs :: backoffList (startMs * 2) n

/-- What a run of `newServerConn` (proxy.go lines 66-84) does: the endpoints
it tried in order, the sleeps it performed after failed attempts, the endpoint
it connected to (`none` = all attempts failed), and the terminal failure
message, if any. -/
structure DialTrace where
  attempts : List String
  sleepsMs : List Nat
  connected : Option String
  failMessage : Option String
deriving Repr, DecidableEq

/-- The loop of proxy.go lines 69-82, with the dial outcomes (`dialOK
attempt server`) and random draws (`draws attempt`) supplied as oracles.
`retryCount` counts down from 7; after each failure the loop sleeps
`retrySleepMs`, doubles it and records the endpoint in `lastServer`.  On
exhaustion it returns the error `Couldn't connect to <lastServer>`.  `none`
models the panic of indexing an empty `p.servers`. -/
def newServerConnLoop (servers : List String) (draws : Nat → Nat)
    (dialOK : Nat → String → Bool) :
    Nat → Nat → Nat → String → List String → List Nat → Option DialTrace
  | 0, _, _, lastServer, attemptsAcc, sleepsAcc =>
    some { attempts := attemptsAcc.reverse
           sleepsMs := sleepsAcc.reverse
           connected := none
           failMessage := some ("Couldn't connect to " ++ lastServer) }
  | retryCount + 1, attempt, retrySleepMs, _, attemptsAcc, sleepsAcc =>
    match pickServer servers (draws attempt) with
    | none => none
    | some server =>
      if dialOK attempt server then
        some { attempts := (server :: attemptsAcc).reverse
               sleepsMs := sleepsAcc.reverse
               connected := some server
               failMessage := none }
      else
        newServerConnLoop servers draws dialOK retryCount (attempt + 1)
          (retrySleepMs * 2) server (server :: attemptsAcc)
          (retrySleepMs :: sleepsAcc)

/-- proxy.go `newServerConn` (lines 66-84): up to 7 attempts, first sleep
50 ms. -/
def newServerConn (servers : List String) (draws : Nat → Nat)
    (dialOK : Nat → String → Bool) : Option DialTrace :=
  newServerConnLoop servers draws dialOK 7 0 50 "" [] []

/-- proxy.go `keyIndex` (lines 424-431): the index of the first element whose
name, with every leading `$` removed, equals `k` under `strings.EqualFold`;
`none` models Go's `-1`. -/
def keyIndex (d : BsonD) (k : String) : Option Nat :=
  match d with
  | [] => none
  | e :: rest =>
    if strEqualFold (trimLeftChar '$' e.1) k then some 0
    else (keyIndex rest k).map (· + 1)

/-- proxy.go `getKey` (lines 437-442): the value at `keyIndex`, `none` when
the key is absent (Go returns the nil interface). -/
def getKeyVal (d : BsonD) (k : String) : Option BVal :=
  match d with
  | [] => none
  | e :: rest =>
    if strEqualFold (trimLeftChar '$' e.1) k then some e.2
    else getKeyVal rest k

/-- The condition proxy.go tests at lines 302 and 378 (with its two conjuncts
in either order): the document has more than one element and its first
element's name, with every leading `$` removed, is `query`. -/
def isWrappedQueryDoc (q : BsonD) : Bool :=
  q.length > 1 &&
    (match q.head? with
     | some e => trimLeftChar '$' e.1 == "query"
     | none => false)

/-- proxy.go lines 302-309: when `!(len(query) > 1 && TrimLeft(query[0].Name,
"$") == "query")`, the query is replaced by `{ $query: <original> }`. -/
def wrapStep (query : BsonD) : BsonD :=
  if !isWrappedQueryDoc query then [("$query", BVal.doc query)] else query

/-- proxy.go line 311: `float64((p.messageTimeout - 1*time.Second) /
time.Millisecond)`.  `time.Duration` is an int64 count of nanoseconds and Go's
integer division truncates toward zero (`Int.tdiv`); the resulting integer is
converted to float64 (exactly, for every realistic timeout), modelled as the
rational it denotes. -/
def maxCapQ (messageTimeoutNs : Int) : ℚ :=
  ((messageTimeoutNs - 1000000000).tdiv 1000000 : Int)

/-- proxy.go lines 312-321: if a `maxTimeMS` key exists (first match of
`keyIndex`), assert its value is a float64 — `none` models the panic of
`query[index].Value.(float64)` on any other value — and clamp it in place to
at most `cap`; otherwise append `$maxTimeMS = cap`. -/
def clampStep (cap : ℚ) : BsonD → Option BsonD
  | [] => some [("$maxTimeMS", BVal.double cap)]
  | e :: rest =>
    if strEqualFold (trimLeftChar '$' e.1) "maxTimeMS" then
      match e.2 with
      | BVal.double v => some ((e.1, BVal.double (if v > cap then cap else v)) :: rest)
      | _ => none
    else (clampStep cap rest).map (e :: ·)

/-- The `$queryGuard` element proxy.go lines 323-335 append: sub-keys
`remoteaddr` then `track`, in that order. -/
def guardElem (remoteAddr queryID : String) : String × BVal :=
  ("$queryGuard", BVal.doc [("remoteaddr", BVal.str remoteAddr), ("track", BVal.str queryID)])

/-- proxy.go `mutateQuery` (lines 301-338): wrap if needed, clamp or append
the time limit, then append the `$queryGuard` tag.  `none` models the panic
of the float64 type assertion in the clamp. -/
def mutateQuery (query : BsonD) (remoteAddr queryID : String)
    (messageTimeoutNs : Int) : Option BsonD :=
  (clampStep (maxCapQ messageTimeoutNs) (wrapStep query)).map
    (· ++ [guardElem remoteAddr queryID])

/-- proxy.go lines 382-391: the `orderby` fall-back of `firstIndexableField`.
`getKey` looks the key up case-insensitively ignoring leading `$`; a document
value yields its first key (`t[0]` panics on an empty document, modelled as
`none`); a string value is returned with `-` trimmed from both ends
(`strings.Trim`); a BSON null unmarshals to the nil interface, so the
`orderby != nil` test fails and, like any other value type (the logged
`default` case), control falls through to `query[0].Name`. -/
def orderbyField (query : BsonD) : Option String :=
  match getKeyVal query "orderby" with
  | some (BVal.doc (oe :: _)) => some oe.1
  | some (BVal.doc []) => none
  | some (BVal.str s) => some (strTrimChar '-' s)
  | _ => query.head?.map (·.1)

/-- proxy.go `firstIndexableField` (lines 377-394).  `none` models the panic
of `query[0]` on an empty document or of `t[0]` on an empty `orderby`
document.  Note the guard requires `len(query) > 1`: a wrapped query that is
the document's only element is NOT treated as wrapped here. -/
def firstIndexableField (query : BsonD) : Option String :=
  match query with
  | [] => none
  | e :: _ =>
    if trimLeftChar '$' e.1 == "query" && query.length > 1 then
      match e.2 with
      | BVal.doc (ie :: _) => some ie.1
      | _ => orderbyField query
    else some e.1

/-- proxy.go `checkForIndex` (lines 353-375), with the control channel's
results as parameters: `countResult = none` models a failed
`Collection.Count`, which logs and leaves `count = 0` (mgo returns 0 with the
error), so the query is admitted; `indexesResult = none` models a failed
`Collection.Indexes`, which logs and leaves the slice nil, so the loop finds
no match.  Each index is represented by its first key name `index.Key[0]`;
the comparison trims `-` from both ends (`strings.Trim`) and folds case.
The result `none` models the panic inside `firstIndexableField`. -/
def checkForIndex (countResult : Option Nat) (indexesResult : Option (List String))
    (query : BsonD) : Option Bool :=
  let count := countResult.getD 0
  if count = 0 then some true
  else
    match firstIndexableField query with
    | none => none
    | some fieldName =>
      some ((indexesResult.getD []).any fun key0 =>
        strEqualFold (strTrimChar '-' key0) fieldName)

/-- proxy.go line 212: a namespace bypasses inspection when it ends in
`.$cmd`, ends in `.indexes`, or contains `.system.` (the suffix literals at
lines 46-48 include the C-string's NUL terminator, which the embedded
namespace string omits on both sides). -/
def isBypassNamespace (fn : String) : Bool :=
  strEndsWithStr fn ".$cmd" || strEndsWithStr fn ".indexes" || strContainsStr fn ".system."

/-- Helper for `splitDatabaseCollection`: split at the first `.`. -/
def splitDotAux (acc : List Char) : List Char → Option (String × String)
  | [] => none
  | c :: rest =>
    if c == '.' then some (String.mk acc.reverse, String.mk rest)
    else splitDotAux (c :: acc) rest

/-- proxy.go `splitDatabaseCollection` (lines 419-422):
`strings.SplitN(fullName, ".", 2)` and the two pieces; when the name has no
dot, `split[1]` panics — modelled as `none`. -/
def splitDatabaseCollection (fullName : String) : Option (String × String) :=
  splitDotAux [] fullName.toList

/-- A chunk of bytes written to the server socket in `handleQueryRequest`
(the `parts` slice plus the trailing `io.CopyN`), identified structurally:
the header, the 4 flag bytes, the namespace C-string, the two int32s
(numberToSkip, numberToReturn), a query document, and the opaque remaining
bytes (`pending`, lines 247-251). -/
inductive WireChunk where
  | hdr (h : MessageHeader)
  | flagsBytes
  | namespaceBytes (fn : String)
  | skipReturnBytes
  | docBytes (d : BsonD)
  | tailBytes
deriving Repr

/-- What one invocation of `handleQueryRequest` (proxy.go lines 169-299) does
up to the response phase: the chunks written to the server, the synthetic
replies written to the client, whether the Go code panicked, whether the
function returned a non-nil error to the pump (which would make
`handleClientConnection` reconnect upstream; `false` = the pump loops back to
reading the next client header with the client connection open), the value of
the function-scope `q` when the response phase begins, and the value of the
function-scope `queryID` (declared `""` at line 171) as the reactor at line
259 reads it.  Line 222 declares a NEW `queryID` with `:=`, scoped to the
admission block, so the outer variable read by the reactor is always `""`. -/
structure QueryOutcome where
  toServer : List WireChunk
  toClient : List ErrorReply
  panicked : Bool
  pumpReturnsError : Bool
  qAtResponsePhase : BsonD
  trackIDAtReactor : String
deriving Repr

/-- The outcome fields shared by every panic path (nothing was written to the
server: all writes happen at lines 238-251, after the branches that panic). -/
def panicOutcome (q : BsonD) : QueryOutcome :=
  { toServer := [], toClient := [], panicked := true, pumpReturnsError := true
    qAtResponsePhase := q, trackIDAtReactor := "" }

/-- proxy.go `handleQueryRequest` (lines 169-251), after the query body has
been parsed, with the control channel's count and index-list results supplied
as parameters and the freshly generated `uuid.New("Q")` supplied as
`freshQueryID`.  Client and server writes are assumed to succeed (their
failure paths only propagate the I/O error).  The header-length patching of
lines 226-230 is not modelled: no claim concerns the byte length. -/
def handleQueryRequest (h : MessageHeader) (fn : String) (q : BsonD)
    (countResult : Option Nat) (indexesResult : Option (List String))
    (remoteAddr freshQueryID : String) (messageTimeoutNs : Int) : QueryOutcome :=
  let base := [WireChunk.hdr h, WireChunk.flagsBytes, WireChunk.namespaceBytes fn,
               WireChunk.skipReturnBytes]
  if !isBypassNamespace fn && !q.isEmpty then
    match splitDatabaseCollection fn with
    | none => panicOutcome q
    | some (_database, collection) =>
      match checkForIndex countResult indexesResult q with
      | none => panicOutcome q
      | some false =>
        { toServer := []
          toClient := [sendErrorToClient h
            ("No index was found that could be used for your query try db."
              ++ collection ++ ".getIndexes()") 17357]
          panicked := false, pumpReturnsError := false
          qAtResponsePhase := q, trackIDAtReactor := "" }
      | some true =>
        match mutateQuery q remoteAddr freshQueryID messageTimeoutNs with
        | none => panicOutcome q
        | some newQ =>
          { toServer := base ++ [WireChunk.docBytes newQ, WireChunk.tailBytes]
            toClient := [], panicked := false, pumpReturnsError := false
            qAtResponsePhase := newQ, trackIDAtReactor := "" }
  else
    { toServer := base ++ [WireChunk.docBytes q, WireChunk.tailBytes]
      toClient := [], panicked := false, pumpReturnsError := false
      qAtResponsePhase := q, trackIDAtReactor := "" }

/-- A value of the reactor's `bson.M` filter: a plain equality constraint
(map assignment of a BSON value), or the `{"$gte": <n>}` document assigned to
`secs_running` (its bound `math.Floor(duration.Seconds()) - 1` is an integral
float64, modelled as a rational). -/
inductive FilterVal where
  | eqv (v : BVal)
  | gteNum (bound : ℚ)
deriving Repr

/-- Assignment into a Go map modelled as an ordered association list:
replaces the value of an existing key, otherwise appends the pair. -/
def mapInsert (m : List (String × FilterVal)) (k : String) (v : FilterVal) :
    List (String × FilterVal) :=
  if m.any (·.1 == k) then m.map (fun e => if e.1 == k then (k, v) else e)
  else m ++ [(k, v)]

/-- Lookup in the modelled Go map. -/
def lookupFilter (m : List (String × FilterVal)) (k : String) : Option FilterVal :=
  (m.find? (·.1 == k)).map (·.2)

mutual

/-- proxy.go `flattenQuery` (lines 340-351) on an `interface{}` value: a
`bson.D` recurses into its elements (each element extends the dotted path by
its name); anything else — arrays included — becomes an equality constraint
at the joined path. -/
def flattenQuery : BVal → List String → List (String × FilterVal) → List (String × FilterVal)
  | BVal.doc elems, name, result => flattenElems elems name result
  | v, name, result => mapInsert result (String.intercalate "." name) (FilterVal.eqv v)

/-- The `for _, v := range m` loop of `flattenQuery` combined with its
`bson.DocElem` case: each element recurses on its value with the path
extended by its name. -/
def flattenElems : List (String × BVal) → List String → List (String × FilterVal) → List (String × FilterVal)
  | [], _, result => result
  | e :: rest, name, result => flattenElems rest name (flattenQuery e.2 (name ++ [e.1]) result)

end

/-- proxy.go lines 257-264: the in-progress-operations filter the reactor
builds when the response copy fails.  `q` is the function-scope query
document (the mutated document, for an admitted query) and `queryID` the
function-scope `queryID` (always `""`, see `QueryOutcome`); `floorSecs` is
`math.Floor(duration.Seconds())`. -/
def reactorFilter (fn : String) (q : BsonD) (queryID : String) (floorSecs : Int) :
    List (String × FilterVal) :=
  let f := [("op", FilterVal.eqv (BVal.str "query")), ("ns", FilterVal.eqv (BVal.str fn))]
  if queryID == "" then
    flattenQuery (BVal.doc q) ["query"]
      (mapInsert f "secs_running" (FilterVal.gteNum ((floorSecs : ℚ) - 1)))
  else
    mapInsert f "query.$queryGuard.track" (FilterVal.eqv (BVal.str queryID))

/-- The response-copy failure, as proxy.go line 288 classifies it:
`err.(net.Error)` succeeding with `Timeout()` true, and the error text
`err.Error()` interpolated at line 291. -/
structure RespFailure where
  isTimeout : Bool
  text : String
deriving Repr, DecidableEq

/-- What the reactor does after building the filter (proxy.go lines 267-293):
the opids it killed, whether it refreshed the client deadline, and the
synthetic reply it wrote.  Everything — the kills, the deadline refresh and
the reply — sits inside `if bcerr == nil`: when the control-channel find
fails (`bcFind = none`, which includes mgo's ErrNotFound when no operation
matches), nothing at all is sent to the client. -/
structure ReactorOutcome where
  kills : List Int
  deadlineRefreshed : Bool
  clientReply : Option ErrorReply
deriving Repr

/-- proxy.go lines 273-293.  `bcFind` is the result of the control-channel
`$cmd.sys.inprog` find (`none` = `bcerr != nil`); `respErr` is the original
response-copy error (the `err` of line 254, still in scope at line 288 — the
kill loop's `err` at line 276 is scoped to the loop body); `timeoutStr` is
the rendering of `p.messageTimeout` that `fmt.Errorf("%s")` produces. -/
def reactorOnFailure (h : MessageHeader) (bcFind : Option (List Int))
    (respErr : RespFailure) (timeoutStr : String) : ReactorOutcome :=
  match bcFind with
  | none => { kills := [], deadlineRefreshed := false, clientReply := none }
  | some ops =>
    { kills := ops
      deadlineRefreshed := true
      clientReply := some (if respErr.isTimeout then
          sendErrorToClient h
            ("Your query exceeded the time limit of " ++ timeoutStr
              ++ " and has been killed") 50
        else
          sendErrorToClient h
            ("Error: " ++ respErr.text ++ ". Your query has been killed") 14044) }

/-- The precondition under which the clamp of `mutateQuery` cannot panic:
every top-level entry matching `maxTimeMS` (case-insensitively, ignoring
leading `$`) carries a 64-bit floating-point value. -/
def maxTimeWellTyped (d : BsonD) : Prop :=
  ∀ e ∈ d, strEqualFold (trimLeftChar '$' e.1) "maxTimeMS" = true →
    ∃ x : ℚ, e.2 = BVal.double x

/-- Claim C3's notion of the first indexable field, written from the claim's
words (to be compared with the source's `firstIndexableField`): "the inner
document's first key if the query is wrapped (first key 'query' or '$query')
with a non-empty document value; else the orderby entry's first key (document)
or the orderby string with leading '-' stripped; else the query's own first
key". -/
def firstIndexableFieldClaim (q : BsonD) : String :=
  match q with
  | [] => ""
  | e :: _ =>
    if e.1 == "query" || e.1 == "$query" then
      match e.2 with
      | BVal.doc (ie :: _) => ie.1
      | _ =>
        match q.find? (·.1 == "orderby") with
        | some (_, BVal.doc (oe :: _)) => oe.1
        | some (_, BVal.str s) => String.mk (s.toList.dropWhile (· == '-'))
        | _ => e.1
    else e.1

/-- Claim C3's forwarding condition, written from the claim's words: forward
iff the collection's document count is 0, or some index's first key name
equals the query's first indexable field under ASCII case-insensitive
comparison with any leading '-' stripped. -/
def forwardClaimC3 (countResult : Option Nat) (indexesResult : Option (List String))
    (q : BsonD) : Bool :=
  countResult.getD 0 == 0 ||
    (indexesResult.getD []).any fun key0 =>
      strEqualFold (String.mk (key0.toList.dropWhile (· == '-')))
        (firstIndexableFieldClaim q)

/-- A sample request header used by the concrete evaluations below. -/
def hdrEx : MessageHeader :=
  { messageLength := 100, requestID := 7, responseTo := 0, opCode := OpCode.query }

/-- Concrete admitted query for C1: `{ email: "a@b" }` on `app.users`, which
has an index on `email` and 3 documents. -/
def c1Query : BsonD := [("email", BVal.str "a@b")]

/-- The outcome of handling `c1Query` (admitted and forwarded, tagged with
fresh tracking id `Qsample`). -/
def c1Outcome : QueryOutcome :=
  handleQueryRequest hdrEx "app.users" c1Query (some 3) (some ["email"])
    "1.2.3.4" "Qsample" 5000000000

/-- The in-progress-operations filter the reactor builds when the response
copy for `c1Query` fails after 12 elapsed seconds, fed with the
function-scope `q` and `queryID` values the code actually has at line 259. -/
def c1Filter : List (String × FilterVal) :=
  reactorFilter "app.users" c1Outcome.qAtResponsePhase c1Outcome.trackIDAtReactor 12

/-- The synthetic reply for a sample message, used to inspect the prelude. -/
def c2Reply : ErrorReply := sendErrorToClient hdrEx "boom" 17357

/-- Concrete counterexample query for C3: a wrapped query that is the sole
top-level element, `{ $query: { email: "a" } }`. -/
def c3cexQuery : BsonD := [("$query", BVal.doc [("email", BVal.str "a")])]

/-- The outcome of handling `c3cexQuery` on a 5-document collection whose
only index has first key `email`. -/
def c3cexOutcome : QueryOutcome :=
  handleQueryRequest hdrEx "app.users" c3cexQuery (some 5) (some ["email"])
    "1.2.3.4" "Q3" 5000000000

/-- Concrete counterexample query for C4: a wrapped query that already
carries a top-level `$queryGuard` key. -/
def c4cexQuery : BsonD :=
  [("$query", BVal.doc [("email", BVal.str "x")]), ("$queryGuard", BVal.str "evil")]

/-- The outcome of handling `c4cexQuery` (admitted: inner first key `email`
is indexed). -/
def c4cexOutcome : QueryOutcome :=
  handleQueryRequest hdrEx "app.users" c4cexQuery (some 5) (some ["email"])
    "1.2.3.4" "Q4" 5000000000

/-- Concrete counterexample query for C7: an already-wrapped query that is
the document's only element. -/
def c7cexQuery : BsonD := [("$query", BVal.doc [("a", BVal.double 1)])]

/-- Concrete crashing query for C9: admitted (inner first key `email`), with
a top-level `maxTimeMS` whose value is an integer, not a float64. -/
def c9crashQuery : BsonD :=
  [("$query", BVal.doc [("email", BVal.str "x")]), ("maxTimeMS", BVal.intV 5)]

/-- Concrete counterexample query for C10: wrapped (non-document `$query`
value) with an empty `orderby` document — `firstIndexableField` panics at
`t[0]`. -/
def c10cexQuery : BsonD := [("$query", BVal.str "x"), ("orderby", BVal.doc [])]

/-- Structural description of the clamp: either no `maxTimeMS` key exists and
`$maxTimeMS = cap` is appended, or the first matching entry is a float64 and
is clamped in place, its key untouched. -/
theorem clampStep_spec (cap : ℚ) :
    ∀ (d d' : BsonD), clampStep cap d = some d' →
      (keyIndex d "maxTimeMS" = none ∧ d' = d ++ [("$maxTimeMS", BVal.double cap)]) ∨
      (∃ i n v, keyIndex d "maxTimeMS" = some i ∧ d.get? i = some (n, BVal.double v) ∧
        d' = d.set i (n, BVal.double (if v > cap then cap else v))) := by
  intro d
  induction d with
  | nil =>
    intro d' h
    left
    refine ⟨rfl, ?_⟩
    simpa [clampStep] using h.symm
  | cons e rest ih =>
    intro d' h
    by_cases hp : strEqualFold (trimLeftChar '$' e.1) "maxTimeMS" = true
    · right
      rw [clampStep, if_pos hp] at h
      match hv : e.2 with
      | BVal.double v =>
        rw [hv] at h
        refine ⟨0, e.1, v, ?_, ?_, ?_⟩
        · rw [keyIndex, if_pos hp]
        · have he : e = (e.1, BVal.double v) := by rw [← hv]
          simp [List.get?, ← he]
        · simpa [List.set] using h.symm
      | BVal.str s => rw [hv] at h; cases h
      | BVal.doc l => rw [hv] at h; cases h
      | BVal.arr l => rw [hv] at h; cases h
      | BVal.boolV b => rw [hv] at h; cases h
      | BVal.intV n => rw [hv] at h; cases h
      | BVal.nullV => rw [hv] at h; cases h
    · rw [clampStep, if_neg hp] at h
      rcases Option.map_eq_some'.mp h with ⟨r', hr', hd'⟩
      rcases ih r' hr' with ⟨hnone, heq⟩ | ⟨i, n, v, hi, hget, hset⟩
      · left
        refine ⟨?_, ?_⟩
        · rw [keyIndex, if_neg hp, hnone]; rfl
        · rw [← hd', heq]; rfl
      · right
        refine ⟨i + 1, n, v, ?_, ?_, ?_⟩
        · rw [keyIndex, if_neg hp, hi]; rfl
        · simpa using hget
        · rw [← hd', hset]; rfl

/-- The clamp succeeds on every document whose `maxTimeMS` entries (if any)
are float64-valued. -/
theorem clampStep_isSome_of_wellTyped (cap : ℚ) :
    ∀ d : BsonD, maxTimeWellTyped d → (clampStep cap d).isSome = true := by
  intro d
  induction d with
  | nil => intro _; rfl
  | cons e rest ih =>
    intro hw
    by_cases hp : strEqualFold (trimLeftChar '$' e.1) "maxTimeMS" = true
    · rcases hw e (List.mem_cons_self e rest) hp with ⟨x, hx⟩
      rw [clampStep, if_pos hp, hx]
      rfl
    · rw [clampStep, if_neg hp]
      have := ih (fun a ha hp' => hw a (List.mem_cons_of_mem e ha) hp')
      rcases Option.isSome_iff_exists.mp this with ⟨r', hr'⟩
      rw [hr']
      rfl

/-- The clamp never changes how many elements are named `$queryGuard`. -/
theorem clampStep_countGuard (cap : ℚ) :
    ∀ (d d' : BsonD), clampStep cap d = some d' →
      d'.countP (fun e => e.1 == "$queryGuard") = d.countP (fun e => e.1 == "$queryGuard") := by
  intro d
  induction d with
  | nil =>
    intro d' h
    have : d' = [("$maxTimeMS", BVal.double cap)] := by simpa [clampStep] using h.symm
    subst this
    rfl
  | cons e rest ih =>
    intro d' h
    by_cases hp : strEqualFold (trimLeftChar '$' e.1) "maxTimeMS" = true
    · rw [clampStep, if_pos hp] at h
      match hv : e.2 with
      | BVal.double v =>
        rw [hv] at h
        have hd' : d' = (e.1, BVal.double (if v > cap then cap else v)) :: rest := by
          exact (Option.some.injEq _ _ ▸ h).symm
        subst hd'
        simp [List.countP_cons]
      | BVal.str s => rw [hv] at h; cases h
      | BVal.doc l => rw [hv] at h; cases h
      | BVal.arr l => rw [hv] at h; cases h
      | BVal.boolV b => rw [hv] at h; cases h
      | BVal.intV n => rw [hv] at h; cases h
      | BVal.nullV => rw [hv] at h; cases h
    · rw [clampStep, if_neg hp] at h
      rcases Option.map_eq_some'.mp h with ⟨r', hr', hd'⟩
      subst hd'
      simp [List.countP_cons, ih r' hr']

/-- When the head of the document does not match `maxTimeMS`, the clamp
keeps it in place. -/
theorem clampStep_head (cap : ℚ) (e : String × BVal) (rest : BsonD) (d' : BsonD)
    (hp : strEqualFold (trimLeftChar '$' e.1) "maxTimeMS" = false)
    (h : clampStep cap (e :: rest) = some d') : ∃ r', d' = e :: r' := by
  rw [clampStep, if_neg (by simp [hp])] at h
  rcases Option.map_eq_some'.mp h with ⟨r', _, hd'⟩
  exact ⟨r', hd'.symm⟩

/-- The document `mutateQuery` clamps always starts with a query-like
element: either the wrap just added `$query`, or the keep-branch guard
requires the first name to trim to `query`. -/
theorem wrapStep_head (q : BsonD) :
    ∃ e0 rest0, wrapStep q = e0 :: rest0 ∧ trimLeftChar '$' e0.1 = "query" := by
  cases hw : isWrappedQueryDoc q
  · exact ⟨("$query", BVal.doc q), [], by rw [wrapStep, hw]; rfl,
      by show trimLeftChar '$' "$query" = "query"; decide⟩
  · have hws : wrapStep q = q := by rw [wrapStep, hw]; rfl
    rcases q with _ | ⟨e0, rest0⟩
    · simp [isWrappedQueryDoc] at hw
    · refine ⟨e0, rest0, hws, ?_⟩
      simp [isWrappedQueryDoc] at hw
      exact hw.2

/-- The element `keyIndex` points at satisfies the fold-and-trim match. -/
theorem keyIndex_pred :
    ∀ (d : BsonD) (k : String) (i : Nat), keyIndex d k = some i →
      ∃ e, d.get? i = some e ∧ strEqualFold (trimLeftChar '$' e.1) k = true := by
  intro d
  induction d with
  | nil => intro k i h; cases h
  | cons e rest ih =>
    intro k i h
    by_cases hp : strEqualFold (trimLeftChar '$' e.1) k = true
    · rw [keyIndex, if_pos hp] at h
      cases h
      exact ⟨e, rfl, hp⟩
    · rw [keyIndex, if_neg hp] at h
      rcases Option.map_eq_some'.mp h with ⟨j, hj, hij⟩
      rcases ih k j hj with ⟨e', hget, hpred⟩
      exact ⟨e', by rw [← hij]; simpa using hget, hpred⟩

/-- Pushing a cons through `getLast?.getD`. -/
theorem consGetLastGetD {α : Type} (a b : α) (l : List α) :
    (a :: l).getLast?.getD b = l.getLast?.getD a := by
  cases l with
  | nil => rfl
  | cons c cs =>
    rw [List.getLast?_cons_cons]
    rcases h : (c :: cs).getLast? with _ | x
    · exact absurd (List.getLast?_eq_none_iff.mp h) (List.cons_ne_nil c cs)
    · rfl

/-- Invariant of the dial loop: the endpoints tried extend the accumulator by
at most `retryCount` entries, each chosen by `pickServer`; the sleeps follow
the doubling back-off from the current `retrySleepMs`; and on exhaustion the
failure message names the most recently tried endpoint. -/
theorem newServerConnLoop_spec (servers : List String) (draws : Nat → Nat)
    (dialOK : Nat → String → Bool) :
    ∀ (r attempt sleepMs : Nat) (lastServer : String) (accA : List String)
      (accS : List Nat) (t : DialTrace),
      newServerConnLoop servers draws dialOK r attempt sleepMs lastServer accA accS = some t →
      ∃ newA newS,
        t.attempts = accA.reverse ++ newA ∧
        t.sleepsMs = accS.reverse ++ newS ∧
        newA.length ≤ r ∧
        newS = backoffList sleepMs newS.length ∧
        newS.length ≤ r ∧
        (∀ s ∈ newA, ∃ d, pickServer servers d = some s) ∧
        (t.connected = none →
          newA.length = r ∧ newS.length = r ∧
          t.failMessage = some ("Couldn't connect to " ++ newA.getLast?.getD lastServer)) := by
  intro r
  induction r with
  | zero =>
    intro attempt sleepMs lastServer accA accS t h
    rw [newServerConnLoop] at h
    cases h
    exact ⟨[], [], by simp, by simp, le_refl _, rfl, le_refl _, by simp, fun _ => ⟨rfl, rfl, rfl⟩⟩
  | succ r ih =>
    intro attempt sleepMs lastServer accA accS t h
    rw [newServerConnLoop] at h
    rcases hpick : pickServer servers (draws attempt) with _ | server
    · rw [hpick] at h; cases h
    · rw [hpick] at h
      simp only at h
      by_cases hdial : dialOK attempt server = true
      · rw [if_pos hdial] at h
        cases h
        refine ⟨[server], [], by simp, by simp,
          by simp only [List.length_singleton]; omega, rfl,
          by simp only [List.length_nil]; omega,
          ?_, fun hc => by cases hc⟩
        intro s hs
        rw [List.mem_singleton.mp hs]
        exact ⟨draws attempt, hpick⟩
      · rw [if_neg hdial] at h
        rcases ih (attempt + 1) (sleepMs * 2) server (server :: accA)
          (sleepMs :: accS) t h with
          ⟨newA, newS, hA, hS, hAl, hback, hSl, hpicks, hfail⟩
        refine ⟨server :: newA, sleepMs :: newS, ?_, ?_, by simpa using Nat.succ_le_succ hAl,
          ?_, by simpa using Nat.succ_le_succ hSl, ?_, ?_⟩
        · rw [hA]; simp
        · rw [hS]; simp
        · rw [List.length_cons, backoffList]
          rw [← hback]
        · intro s hs
          rcases List.mem_cons.mp hs with hs | hs
          · rw [hs]; exact ⟨draws attempt, hpick⟩
          · exact hpicks s hs
        · intro hc
          rcases hfail hc with ⟨h1, h2, h3⟩
          refine ⟨by simp [h1], by simp [h2], ?_⟩
          rw [h3, consGetLastGetD]

/-- C1: the claim says that for an admitted, forwarded (tagged) query whose
response copy fails, the reactor's filter holds `query.$queryGuard.track` =
the fresh tracking id and does NOT fall back to the secs_running/flattened
brute-force fingerprint.  What the code does (evaluated here on the concrete
admitted query `{ email: "a@b" }`, tagged `Qsample`, failing after 12 s): the
`queryID := uuid.New("Q")` at line 222 declares a NEW variable shadowing the
`queryID` of line 171, so the reactor always sees `""` and always takes the
brute-force branch — the filter does contain the track entry, but only
because flattening the mutated query emits it, and it also contains the
`secs_running` bound and every other flattened leaf. -/
theorem c1_reactor_filter_bruteforce :
    c1Outcome.toClient = [] ∧
    c1Outcome.toServer.length = 6 ∧
    c1Outcome.trackIDAtReactor = "" ∧
    lookupFilter c1Filter "secs_running" = some (FilterVal.gteNum (((12 : Int) : ℚ) - 1)) ∧
    lookupFilter c1Filter "query.$queryGuard.track" =
      some (FilterVal.eqv (BVal.str "Qsample")) ∧
    lookupFilter c1Filter "query.$queryGuard.remoteaddr" =
      some (FilterVal.eqv (BVal.str "1.2.3.4")) :=
  ⟨rfl, rfl, rfl, rfl, rfl, rfl⟩

/-- C2: every synthetic error reply is a Reply-opcode message whose header's
`responseTo` equals the offending request's id, whose body is a 20-byte
prelude followed by exactly one document `{ $err, code }` — all confirmed
here on a concrete reply — but the prelude does NOT little-endian-encode
`responseFlags = 0` and `numberReturned = 1` as the claim states: the two
`1` bytes of `errorBytes` sit at the big-endian end, so the little-endian
decoding of bytes 0-3 is 16777216 (not 0) and of bytes 16-19 is 16777216
(not 1). -/
theorem c2_error_reply_prelude :
    c2Reply.header.responseTo = 7 ∧
    c2Reply.header.opCode = OpCode.reply ∧
    c2Reply.errDoc = [("$err", BVal.str "boom"), ("code", BVal.intV 17357)] ∧
    c2Reply.preludeBytes = errorBytes ∧
    c2Reply.preludeBytes.length = 20 ∧
    decodeLE32 c2Reply.preludeBytes 0 = 16777216 ∧
    decodeLE64 c2Reply.preludeBytes 4 = 0 ∧
    decodeLE32 c2Reply.preludeBytes 12 = 0 ∧
    decodeLE32 c2Reply.preludeBytes 16 = 16777216 :=
  ⟨rfl, rfl, rfl, rfl, rfl, rfl, rfl, rfl, rfl⟩

/-- C3 counterexample: on the wrapped single-element query
`{ $query: { email: "a" } }` against a 5-document collection indexed on
`email`, the claim's forwarding rule (`forwardClaimC3`, written from the
claim's words) says forward, but the proxy rejects it: `firstIndexableField`
requires `len(query) > 1` to look inside the wrapper, so it compares the
index against `"$query"` and finds no match — nothing goes to the server and
one rejection reply goes to the client. -/
theorem c3_counterexample_single_wrapped :
    forwardClaimC3 (some 5) (some ["email"]) c3cexQuery = true ∧
    c3cexOutcome.toServer = [] ∧
    c3cexOutcome.toClient.length = 1 :=
  ⟨rfl, rfl, rfl⟩

/-- C3 (amended): for every non-bypass query (on a namespace containing a
dot) whose first-indexable-field computation succeeds with `f` and whose
mutation does not panic, the proxy forwards to the server iff the collection
count is 0 or some index's first key name — with `-` stripped from BOTH ends
(`strings.Trim`) — equals `f` under ASCII case-insensitive comparison.  `f`
is the source's `firstIndexableField`: the inner first key only when the
query is wrapped AND has more than one top-level element; else the orderby
fall-back; else the query's own first key. -/
theorem c3_admission_forwards_iff_index (h : MessageHeader) (fn db coll : String)
    (q : BsonD) (cnt : Option Nat) (idx : Option (List String)) (addr fid : String)
    (tNs : Int) (f : String)
    (hbypass : isBypassNamespace fn = false)
    (hq : q.isEmpty = false)
    (hsplit : splitDatabaseCollection fn = some (db, coll))
    (hfield : firstIndexableField q = some f)
    (hmut : (mutateQuery q addr fid tNs).isSome = true) :
    (handleQueryRequest h fn q cnt idx addr fid tNs).toServer ≠ [] ↔
      (cnt.getD 0 = 0 ∨
        ∃ key0 ∈ idx.getD [], strEqualFold (strTrimChar '-' key0) f = true) := by
  rcases Option.isSome_iff_exists.mp hmut with ⟨newQ, hnq⟩
  by_cases hzero : cnt.getD 0 = 0
  · have hcheck : checkForIndex cnt idx q = some true := by
      simp [checkForIndex, hzero]
    simp [handleQueryRequest, hbypass, hq, hsplit, hcheck, hnq, hzero]
  · cases hany : (idx.getD []).any fun key0 => strEqualFold (strTrimChar '-' key0) f
    · have hcheck : checkForIndex cnt idx q = some false := by
        simp [checkForIndex, hzero, hfield, hany]
      have hnoex : ¬ ∃ key0 ∈ idx.getD [], strEqualFold (strTrimChar '-' key0) f = true := by
        intro ⟨k, hk, hkf⟩
        have hcontra : (idx.getD []).any (fun key0 => strEqualFold (strTrimChar '-' key0) f) = true :=
          List.any_eq_true.mpr ⟨k, hk, hkf⟩
        rw [hany] at hcontra
        cases hcontra
      simp [handleQueryRequest, hbypass, hq, hsplit, hcheck, hzero, hnoex]
    · have hcheck : checkForIndex cnt idx q = some true := by
        simp [checkForIndex, hzero, hfield, hany]
      have hex : ∃ key0 ∈ idx.getD [], strEqualFold (strTrimChar '-' key0) f = true :=
        List.any_eq_true.mp hany
      simp [handleQueryRequest, hbypass, hq, hsplit, hcheck, hnq, hzero, hex]

/-- C3 witness: `{ email: "a" }` on a 2-document collection with an index
whose first key is `Email` (case differs) is forwarded. -/
theorem c3_admission_witness :
    (handleQueryRequest hdrEx "app.users" [("email", BVal.str "a")] (some 2) (some ["Email"])
      "1.2.3.4" "Qw" 5000000000).toServer ≠ [] :=
  (c3_admission_forwards_iff_index hdrEx "app.users" "app" "users" [("email", BVal.str "a")]
    (some 2) (some ["Email"]) "1.2.3.4" "Qw" 5000000000 "email" rfl rfl rfl rfl rfl).mpr
    (Or.inr ⟨"Email", List.mem_singleton.mpr rfl, by decide⟩)

/-- C4 counterexample: the wrapped query
`{ $query: { email: "x" }, $queryGuard: "evil" }` is admitted and forwarded
(it is indexed on `email`), yet the forwarded document contains TWO
`$queryGuard` entries: the client-supplied one survives and the mutator
appends its own, so the claim's "exactly one `$queryGuard` entry" fails. -/
theorem c4_counterexample_duplicate_guard :
    c4cexOutcome.toClient = [] ∧
    c4cexOutcome.toServer.length = 6 ∧
    c4cexOutcome.qAtResponsePhase.countP (fun e => e.1 == "$queryGuard") = 2 :=
  ⟨rfl, rfl, rfl⟩

/-- C4 (amended): for every query whose wrapped form carries no top-level
`$queryGuard` key and whose mutation does not panic, the mutated document is
in wrapped form (first key trims to `query`), contains exactly one
`$queryGuard` entry — the appended last element with sub-keys `remoteaddr`
then `track` —, contains a `maxTimeMS` entry (case-insensitive, leading `$`
ignored) whose float64 value is at most the cap
`(messageTimeout − 1 s) / 1 ms`; an already-present entry keeps its key and
is clamped in place, otherwise `$maxTimeMS` with exactly the cap is appended
before the guard. -/
theorem c4_mutated_query_shape (q : BsonD) (addr fid : String) (tNs : Int) (o : BsonD)
    (hguard : (wrapStep q).countP (fun e => e.1 == "$queryGuard") = 0)
    (hmut : mutateQuery q addr fid tNs = some o) :
    (∃ e rest, o = e :: rest ∧ trimLeftChar '$' e.1 = "query") ∧
    o.countP (fun e => e.1 == "$queryGuard") = 1 ∧
    o.getLast? = some (guardElem addr fid) ∧
    (∃ e ∈ o, strEqualFold (trimLeftChar '$' e.1) "maxTimeMS" = true ∧
      ∃ v : ℚ, e.2 = BVal.double v ∧ v ≤ maxCapQ tNs) ∧
    (keyIndex (wrapStep q) "maxTimeMS" = none →
      o = wrapStep q ++ [("$maxTimeMS", BVal.double (maxCapQ tNs)), guardElem addr fid]) ∧
    (∀ i, keyIndex (wrapStep q) "maxTimeMS" = some i →
      ∃ n v, (wrapStep q).get? i = some (n, BVal.double v) ∧
        o = (wrapStep q).set i
          (n, BVal.double (if v > maxCapQ tNs then maxCapQ tNs else v))
            ++ [guardElem addr fid]) := by
  rcases Option.map_eq_some'.mp hmut with ⟨d', hd', ho⟩
  subst ho
  have hspec := clampStep_spec (maxCapQ tNs) (wrapStep q) d' hd'
  refine ⟨?_, ?_, ?_, ?_, ?_, ?_⟩
  · rcases wrapStep_head q with ⟨e0, rest0, hw, htrim⟩
    rw [hw] at hd'
    have hp : strEqualFold (trimLeftChar '$' e0.1) "maxTimeMS" = false := by
      rw [htrim]; decide
    rcases clampStep_head _ _ _ _ hp hd' with ⟨r', hr'⟩
    exact ⟨e0, r' ++ [guardElem addr fid], by rw [hr']; rfl, htrim⟩
  · rw [List.countP_append, clampStep_countGuard _ _ _ hd', hguard]
    rfl
  · exact List.getLast?_append_cons d' (guardElem addr fid) []
  · rcases hspec with ⟨_, heq⟩ | ⟨i, n, v, hi, hget, hset⟩
    · refine ⟨("$maxTimeMS", BVal.double (maxCapQ tNs)), ?_,
        by show strEqualFold (trimLeftChar '$' "$maxTimeMS") "maxTimeMS" = true; decide,
        maxCapQ tNs, rfl, le_refl _⟩
      rw [heq]
      exact List.mem_append_left _ (List.mem_append_right _ (List.mem_singleton.mpr rfl))
    · have hlt : i < (wrapStep q).length := by
        rcases List.get?_eq_some.mp hget with ⟨hl, _⟩
        exact hl
      have hmem : (n, BVal.double (if v > maxCapQ tNs then maxCapQ tNs else v)) ∈ d' := by
        rw [hset]
        exact List.get?_mem (List.get?_set_eq_of_lt _ hlt)
      rcases keyIndex_pred (wrapStep q) "maxTimeMS" i hi with ⟨e', hget', hpred⟩
      have hne : e' = (n, BVal.double v) := by
        rw [hget'] at hget
        exact Option.some.inj hget
      refine ⟨(n, BVal.double (if v > maxCapQ tNs then maxCapQ tNs else v)),
        List.mem_append_left _ hmem, ?_, (if v > maxCapQ tNs then maxCapQ tNs else v), rfl, ?_⟩
      · have hfold : strEqualFold (trimLeftChar '$' n) "maxTimeMS" = true := by
          rw [hne] at hpred
          exact hpred
        exact hfold
      · by_cases hv : v > maxCapQ tNs
        · rw [if_pos hv]
        · rw [if_neg hv]
          exact le_of_not_lt hv
  · intro hnone
    rcases hspec with ⟨_, heq⟩ | ⟨i, _, _, hi, _, _⟩
    · rw [heq]
      simp
    · rw [hnone] at hi
      cases hi
  · intro i hi
    rcases hspec with ⟨hnone, _⟩ | ⟨i', n, v, hi', hget, hset⟩
    · rw [hnone] at hi
      cases hi
    · rw [hi] at hi'
      have hii : i' = i := (Option.some.inj hi').symm
      subst hii
      exact ⟨n, v, hget, by rw [hset]⟩

/-- C4 witness: the bare query `{ email: "a" }` mutates to a document with
exactly one `$queryGuard` entry. -/
theorem c4_mutated_query_witness :
    ((mutateQuery [("email", BVal.str "a")] "1.2.3.4" "Qw2" 5000000000).getD []).countP
      (fun e => e.1 == "$queryGuard") = 1 :=
  (c4_mutated_query_shape [("email", BVal.str "a")] "1.2.3.4" "Qw2" 5000000000
    ([("$query", BVal.doc [("email", BVal.str "a")]),
      ("$maxTimeMS", BVal.double (maxCapQ 5000000000)),
      guardElem "1.2.3.4" "Qw2"]) rfl rfl).2.1

/-- C5: for every query the inspector rejects (non-bypass namespace with a
dot, non-empty document, `checkForIndex` false), nothing at all is written to
the server and the client receives exactly one synthetic reply whose
`responseTo` equals the request id, with code 17357 and a message naming
`db.<collection>.getIndexes()`; `handleQueryRequest` returns the nil result
of the successful `sendErrorToClient`, so the pump neither reconnects nor
closes the client and loops back to waiting for the next header. -/
theorem c5_reject_sends_single_reply (h : MessageHeader) (fn db coll : String) (q : BsonD)
    (cnt : Option Nat) (idx : Option (List String)) (addr fid : String) (tNs : Int)
    (hbypass : isBypassNamespace fn = false)
    (hq : q.isEmpty = false)
    (hsplit : splitDatabaseCollection fn = some (db, coll))
    (hreject : checkForIndex cnt idx q = some false) :
    (handleQueryRequest h fn q cnt idx addr fid tNs).toServer = [] ∧
    (handleQueryRequest h fn q cnt idx addr fid tNs).toClient =
      [sendErrorToClient h
        ("No index was found that could be used for your query try db."
          ++ coll ++ ".getIndexes()") 17357] ∧
    (sendErrorToClient h
        ("No index was found that could be used for your query try db."
          ++ coll ++ ".getIndexes()") 17357).header.responseTo = h.requestID ∧
    (sendErrorToClient h
        ("No index was found that could be used for your query try db."
          ++ coll ++ ".getIndexes()") 17357).errDoc =
      [("$err", BVal.str ("No index was found that could be used for your query try db."
          ++ coll ++ ".getIndexes()")), ("code", BVal.intV 17357)] ∧
    (handleQueryRequest h fn q cnt idx addr fid tNs).pumpReturnsError = false ∧
    (handleQueryRequest h fn q cnt idx addr fid tNs).panicked = false := by
  simp [handleQueryRequest, hbypass, hq, hsplit, hreject, sendErrorToClient]

/-- C5 witness: the unindexed query `{ name: "x" }` on `app.users` yields
exactly the rejection reply. -/
theorem c5_reject_witness :
    (handleQueryRequest hdrEx "app.users" [("name", BVal.str "x")] (some 3) (some ["email"])
      "1.2.3.4" "Qw5" 5000000000).toClient =
      [sendErrorToClient hdrEx
        ("No index was found that could be used for your query try db.users.getIndexes()")
        17357] :=
  (c5_reject_sends_single_reply hdrEx "app.users" "app" "users" [("name", BVal.str "x")]
    (some 3) (some ["email"]) "1.2.3.4" "Qw5" 5000000000 rfl rfl rfl rfl).2.1

/-- C6 counterexample: a response-phase failure (here a deadline) after which
the control-channel in-progress find fails sends the client NOTHING — no
synthetic reply is written and the deadline is not refreshed — whereas the
claim promises a code-50 reply for every response-phase failure. -/
theorem c6_counterexample_backchannel_failure :
    (reactorOnFailure hdrEx none ⟨true, "read tcp: i/o timeout"⟩ "5s").clientReply = none ∧
    (reactorOnFailure hdrEx none ⟨true, "read tcp: i/o timeout"⟩ "5s").deadlineRefreshed = false :=
  ⟨rfl, rfl⟩

/-- C6 (amended): for every response-phase failure for which the
control-channel in-progress find succeeds, the proxy refreshes the client's
deadline, kills every returned opid and sends exactly one synthetic reply
whose `responseTo` is the request id: code 50 with a message naming the
configured message timeout when the original response failure was a deadline
(`net.Error` with `Timeout()`), otherwise code 14044 with the underlying
error text. -/
theorem c6_reactor_reply_codes (h : MessageHeader) (ops : List Int) (e : RespFailure)
    (ts : String) :
    (reactorOnFailure h (some ops) e ts).deadlineRefreshed = true ∧
    (reactorOnFailure h (some ops) e ts).kills = ops ∧
    ∃ r, (reactorOnFailure h (some ops) e ts).clientReply = some r ∧
      r.header.responseTo = h.requestID ∧ r.header.opCode = OpCode.reply ∧
      r.errDoc = [("$err", BVal.str (if e.isTimeout then
          "Your query exceeded the time limit of " ++ ts ++ " and has been killed"
        else "Error: " ++ e.text ++ ". Your query has been killed")),
        ("code", BVal.intV (if e.isTimeout then 50 else 14044))] := by
  cases he : e.isTimeout <;>
    simp [reactorOnFailure, sendErrorToClient, he]

/-- C7 counterexample: `{ $query: { a: 1.0 } }` has first key `$query`, whose
leading-`$`-stripped form is `query`, so the claim says the mutator leaves it
at its single wrapping level; but the guard also requires more than one
top-level element, so the code wraps it AGAIN, producing
`{ $query: { $query: { a: 1.0 } } }`. -/
theorem c7_counterexample_double_wrap :
    trimLeftChar '$' "$query" = "query" ∧
    wrapStep c7cexQuery = [("$query", BVal.doc c7cexQuery)] ∧
    wrapStep c7cexQuery ≠ c7cexQuery := by
  refine ⟨rfl, rfl, ?_⟩
  simp [wrapStep, isWrappedQueryDoc, c7cexQuery]

/-- C7 (amended): the mutator wraps the query as `{ $query: <original> }` iff
NOT (the document has more than one element AND its first key with all
leading `$` stripped is `query`); the mutated document's head is the original
head when that condition holds, and the fresh `$query` wrapper otherwise (a
single-element wrapped query thus gains a second wrapping level). -/
theorem c7_wrap_condition (q : BsonD) (addr fid : String) (tNs : Int) (o : BsonD)
    (hmut : mutateQuery q addr fid tNs = some o) :
    o.head? = if isWrappedQueryDoc q then q.head? else some ("$query", BVal.doc q) := by
  rcases Option.map_eq_some'.mp hmut with ⟨d', hd', ho⟩
  subst ho
  cases hw : isWrappedQueryDoc q
  · have hws : wrapStep q = [("$query", BVal.doc q)] := by rw [wrapStep, hw]; rfl
    rw [hws] at hd'
    have hp : strEqualFold (trimLeftChar '$' ("$query", BVal.doc q).1) "maxTimeMS" = false := by
      show strEqualFold (trimLeftChar '$' "$query") "maxTimeMS" = false
      decide
    rcases clampStep_head _ _ _ _ hp hd' with ⟨r', hr'⟩
    rw [hr']
    rfl
  · have hws : wrapStep q = q := by rw [wrapStep, hw]; rfl
    rw [hws] at hd'
    rcases q with _ | ⟨e0, rest0⟩
    · simp [isWrappedQueryDoc] at hw
    · have htrim : trimLeftChar '$' e0.1 = "query" := by
        simp [isWrappedQueryDoc] at hw
        exact hw.2
      have hp : strEqualFold (trimLeftChar '$' e0.1) "maxTimeMS" = false := by
        rw [htrim]; decide
      rcases clampStep_head _ _ _ _ hp hd' with ⟨r', hr'⟩
      rw [hr']
      rfl

/-- C7 witness: the bare query `{ a: 1.0 }` (single element, not query-like)
is wrapped. -/
theorem c7_wrap_witness :
    ((mutateQuery [("a", BVal.double 1)] "addr7" "Qw7" 2000000000).getD []).head? =
      some ("$query", BVal.doc [("a", BVal.double 1)]) := by
  have h := c7_wrap_condition [("a", BVal.double 1)] "addr7" "Qw7" 2000000000
    ([("$query", BVal.doc [("a", BVal.double 1)]),
      ("$maxTimeMS", BVal.double (maxCapQ 2000000000)),
      guardElem "addr7" "Qw7"]) rfl
  simpa using h

/-- C8: the dialer makes at most 7 attempts; each attempt's endpoint is the
single configured endpoint when there is one, and `servers[draw mod (N−1)]`
when there are N > 1 — always among the first N−1, never the last, and every
index below N−1 is reachable by the matching draw; the sleeps follow the
doubling back-off starting at 50 ms; and on exhaustion the failure names the
last endpoint tried. -/
theorem c8_dialer_retry_policy (servers : List String) (draws : Nat → Nat)
    (dialOK : Nat → String → Bool) (t : DialTrace)
    (h : newServerConn servers draws dialOK = some t) :
    t.attempts.length ≤ 7 ∧
    (∀ s ∈ t.attempts, ∃ d, pickServer servers d = some s) ∧
    (∀ d s, pickServer servers d = some s →
      (servers.length = 1 → servers = [s]) ∧
      (servers.length > 1 → ∃ i, i < servers.length - 1 ∧ servers.get? i = some s)) ∧
    (servers.length > 1 → ∀ i, i < servers.length - 1 → pickServer servers i = servers.get? i) ∧
    t.sleepsMs = backoffList 50 t.sleepsMs.length ∧
    (t.connected = none →
      t.attempts.length = 7 ∧ t.sleepsMs = backoffList 50 7 ∧
      ∃ lastS, t.attempts.getLast? = some lastS ∧
        t.failMessage = some ("Couldn't connect to " ++ lastS)) := by
  rcases newServerConnLoop_spec servers draws dialOK 7 0 50 "" [] [] t h with
    ⟨newA, newS, hA, hS, hAl, hback, _hSl, hpicks, hfail⟩
  simp only [List.reverse_nil, List.nil_append] at hA hS
  refine ⟨by rw [hA]; exact hAl, ?_, ?_, ?_, by rw [hS]; exact hback, ?_⟩
  · intro s hs
    exact hpicks s (hA ▸ hs)
  · intro d s hpick
    constructor
    · intro hone
      rcases List.length_eq_one.mp hone with ⟨x, hx⟩
      subst hx
      rw [pickServer] at hpick
      simp at hpick
      rw [hpick]
    · intro hgt
      rw [pickServer] at hpick
      rw [if_neg (by omega), if_pos hgt] at hpick
      exact ⟨d % (servers.length - 1), Nat.mod_lt d (by omega), hpick⟩
  · intro hgt i hi
    rw [pickServer, if_neg (by omega), if_pos hgt, Nat.mod_eq_of_lt hi]
  · intro hc
    rcases hfail hc with ⟨h1, h2, h3⟩
    have hAne : newA ≠ [] := by
      intro hnil
      rw [hnil] at h1
      simp at h1
    rcases hx : newA.getLast? with _ | lastS
    · exact absurd (List.getLast?_eq_none_iff.mp hx) hAne
    · refine ⟨by rw [hA]; exact h1, by rw [hS, hback, h2], lastS, by rw [hA]; exact hx, ?_⟩
      rw [h3, hx]
      rfl

/-- C8 witness: three endpoints, every dial failing, draws 0,1,2,…: seven
attempts, all among the first two endpoints, the full back-off sequence, and
a failure naming the last endpoint tried. -/
theorem c8_dialer_witness :
    ∃ t, newServerConn ["s1", "s2", "s3"] (fun k => k) (fun _ _ => false) = some t ∧
      t.attempts.length ≤ 7 ∧ t.sleepsMs = backoffList 50 7 ∧
      t.failMessage = some ("Couldn't connect to " ++ "s1") := by
  have h := c8_dialer_retry_policy ["s1", "s2", "s3"] (fun k => k) (fun _ _ => false)
    ⟨["s1", "s2", "s1", "s2", "s1", "s2", "s1"],
      [50, 100, 200, 400, 800, 1600, 3200], none, some "Couldn't connect to s1"⟩ rfl
  exact ⟨⟨["s1", "s2", "s1", "s2", "s1", "s2", "s1"],
    [50, 100, 200, 400, 800, 1600, 3200], none, some "Couldn't connect to s1"⟩,
    rfl, h.1, (h.2.2.2.2.2 rfl).2.1, rfl⟩

/-- C9: the clamp of `mutateQuery` is total exactly under the claim's
precondition — when every top-level `maxTimeMS` entry of the (wrapped) query
carries a float64 value, mutation succeeds for every query, address, id and
timeout; and on the admitted query
`{ $query: { email: "x" }, maxTimeMS: 5 (int32) }` the type assertion
`query[index].Value.(float64)` fails, modelled as `none` (in Go an
unrecovered panic that brings down the connection handler). -/
theorem c9_clamp_totality_and_crash :
    (∀ (q : BsonD) (addr fid : String) (tNs : Int), maxTimeWellTyped (wrapStep q) →
      (mutateQuery q addr fid tNs).isSome = true) ∧
    mutateQuery c9crashQuery "1.2.3.4" "Q9" 5000000000 = none := by
  constructor
  · intro q addr fid tNs hw
    rw [mutateQuery]
    rcases Option.isSome_iff_exists.mp
      (clampStep_isSome_of_wellTyped (maxCapQ tNs) (wrapStep q) hw) with ⟨d', hd'⟩
    rw [hd']
    rfl
  · rfl

/-- C10 counterexample: with a positive count and a failed index listing, the
wrapped query `{ $query: "x", orderby: {} }` is not rejected — the code
panics (`t[0]` on the empty orderby document, modelled as `none`) instead of
returning `false`, whereas the claim says every non-bypass query on the
non-empty collection is rejected. -/
theorem c10_counterexample_orderby_panic :
    checkForIndex (some 1) none c10cexQuery = none :=
  rfl

/-- C10 (amended): control-channel failures during admission are asymmetric:
a failed document count defaults to 0 and admits the query outright (for
every query and index result), while a failed index listing defaults to an
empty index list and rejects every non-bypass query on a non-empty collection
whose first-indexable-field computation succeeds (the computation itself can
panic on a crafted orderby, see the counterexample); either way
`checkForIndex` returns a value rather than propagating the error. -/
theorem c10_control_channel_asymmetry (q : BsonD) (idx : Option (List String)) (n : Nat)
    (f : String) (hf : firstIndexableField q = some f) :
    checkForIndex none idx q = some true ∧
    checkForIndex (some (n + 1)) none q = some false := by
  constructor
  · rfl
  · simp [checkForIndex, hf]

/-- C10 witness: `{ name: "x" }` is admitted when the count fails and
rejected when the index listing fails on a 3-document collection. -/
theorem c10_control_channel_witness :
    checkForIndex none (some ["email"]) [("name", BVal.str "x")] = some true ∧
    checkForIndex (some 3) none [("name", BVal.str "x")] = some false :=
  c10_control_channel_asymmetry [("name", BVal.str "x")] (some ["email"]) 2 "name" rfl
